import Mathlib

/-!
Verification of the `transcription` repository: a shallow embedding of
`src/transcribe/config.py`, `src/transcribe/audio.py`,
`src/transcribe/transcriber.py` and `src/transcribe/cli.py`.

External processes (ffprobe, ffmpeg, whisper-cli) and the file system are
modelled by explicit environment records supplied to each embedded function;
Python exceptions are modelled with `Except`; the subprocess invocations a
function performs are returned as an explicit event trace.
-/

namespace Transcription

/-! Constants from src/transcribe/config.py. -/

def WHISPER_BINARY : String := "whisper-cli"

def DEFAULT_MODEL : String := "medium"

def REQUIRED_SAMPLE_RATE : Int := 16000

def REQUIRED_CHANNELS : Int := 1

def SUPPORTED_AUDIO_EXTENSIONS : List String :=
  [".wav", ".mp3", ".m4a", ".flac", ".ogg", ".aac", ".wma", ".opus"]

def DEFAULT_OUTPUT_FORMAT : String := "txt"

def SUPPORTED_OUTPUT_FORMATS : List String := ["txt", "srt", "vtt", "json"]

/-- MODEL_DIR from config.py: `Path.home() / ".cache" / "whisper"`, with the
home directory supplied explicitly. -/
def MODEL_DIR (home : String) : String := home ++ "/.cache/whisper"

/-! Paths are modelled as plain strings; the pathlib operations the code uses
(`name`, `suffix`, `with_suffix`, `/`) are embedded below. -/

/-- Pathlib `Path.name`: the text after the last slash. -/
def pathName (p : String) : String :=
  String.mk ((p.data.reverse.takeWhile (fun c => c ≠ '/')).reverse)

/-- Pathlib `Path.suffix`: with `i` the index of the last dot of the name,
the slice `name[i:]` when `0 < i < len(name) - 1`, otherwise the empty
string. `afterDot` is the run of characters after the last dot, so
`i = len(name) - len(afterDot) - 1`. -/
def pathSuffix (p : String) : String :=
  let name := (pathName p).data
  let afterDot := (name.reverse.takeWhile (fun c => c ≠ '.')).reverse
  if 0 < name.length - afterDot.length - 1 ∧ afterDot.length ≠ 0 ∧
      afterDot.length ≠ name.length then
    String.mk ('.' :: afterDot)
  else ""

/-- Pathlib `Path.with_suffix`: drop the current suffix and append the new
one (the new suffix `""` just drops the current one). -/
def withSuffix (p : String) (newSuffix : String) : String :=
  String.mk (p.data.take (p.data.length - (pathSuffix p).data.length) ++ newSuffix.data)

/-- Pathlib `dir / name`. -/
def pathJoin (d : String) (n : String) : String := d ++ "/" ++ n

/-- Python `str.lower()` (ASCII case folding; every supported extension is
ASCII). -/
def pyLower (s : String) : String := String.mk (s.data.map Char.toLower)

/-- Function `detect_format` from src/transcribe/audio.py: lower-case the extension,
return it without its leading dot when supported, else Python `None`. -/
def detect_format (file_path : String) : Option String :=
  let ext := pyLower (pathSuffix file_path)
  if ext ∈ SUPPORTED_AUDIO_EXTENSIONS then some (ext.drop 1) else none

/-- Decidable equality for `Except`, used to evaluate embedded functions on
concrete inputs. -/
instance {ε α : Type} [DecidableEq ε] [DecidableEq α] :
    DecidableEq (Except ε α) := fun x y =>
  match x, y with
  | .ok a, .ok b =>
    if h : a = b then .isTrue (congrArg Except.ok h)
    else .isFalse (fun hh => h (Except.ok.inj hh))
  | .ok _, .error _ => .isFalse (fun hh => Except.noConfusion hh)
  | .error _, .ok _ => .isFalse (fun hh => Except.noConfusion hh)
  | .error e, .error f =>
    if h : e = f then .isTrue (congrArg Except.error h)
    else .isFalse (fun hh => h (Except.error.inj hh))

/-! Python exceptions that the embedded code can raise or catch. -/

/-- The Python exception kinds reachable in the embedded code. -/
inductive PyErr where
  | conversionError (msg : String)
  | dependencyError (msg : String)
  | fileNotFoundError
  | attributeError
  | typeError
  | keyError
  | valueError
  | indexError
  | systemExit (code : Int)
  deriving DecidableEq, Repr

/-! A JSON value model for ffprobe output as parsed by `json.loads`
(numbers restricted to integers; ffprobe stream fields are integers or
strings). -/

/-- Parsed JSON values. -/
inductive Json where
  | null
  | bool (b : Bool)
  | num (n : Int)
  | str (s : String)
  | arr (elems : List Json)
  | obj (fields : List (String × Json))
  deriving Repr

/-- Python dict lookup on a parsed JSON object (duplicate keys: last wins,
as in `json.loads`). -/
def jsonLookup (kvs : List (String × Json)) (k : String) : Option Json :=
  (kvs.reverse.find? (fun kv => kv.1 = k)).map (fun kv => kv.2)

/-- Python truthiness of a JSON value. -/
def Json.truthy : Json → Bool
  | .null => false
  | .bool b => b
  | .num n => n ≠ 0
  | .str s => s ≠ ""
  | .arr elems => !elems.isEmpty
  | .obj fields => !fields.isEmpty

/-- Python `value.get(key, default)`: a dict lookup with default; on any
non-dict value `.get` raises AttributeError. -/
def pyGet (v : Json) (k : String) (dflt : Json) : Except PyErr Json :=
  match v with
  | .obj kvs => .ok ((jsonLookup kvs k).getD dflt)
  | _ => .error .attributeError

/-- Python `value[0]`: list indexing, string indexing (a one-character
string), dict indexing with the int key `0` (KeyError, since JSON object
keys are strings), and TypeError on non-subscriptable values. -/
def pyIndexZero (v : Json) : Except PyErr Json :=
  match v with
  | .arr (x :: _) => .ok x
  | .arr [] => .error .indexError
  | .str s => if s = "" then .error .indexError else .ok (.str (String.mk [s.data.headD ' ']))
  | .obj _ => .error .keyError
  | _ => .error .typeError

/-- Python `int("...")`: strip whitespace, then an optional sign and a
nonempty digit run. -/
def parseIntStr (s : String) : Option Int :=
  let core : List Char → Option Nat := fun cs =>
    if cs ≠ [] ∧ cs.all Char.isDigit then
      some (cs.foldl (fun a c => a * 10 + (c.toNat - 48)) 0)
    else none
  match s.trim.data with
  | '-' :: rest => (core rest).map (fun n => -(n : Int))
  | '+' :: rest => (core rest).map (fun n => (n : Int))
  | cs => (core cs).map (fun n => (n : Int))

/-- Python `int(value)` on a JSON value: ints pass through, bools coerce to
0/1, strings are parsed (ValueError on failure), everything else raises
TypeError. -/
def pyInt (v : Json) : Except PyErr Int :=
  match v with
  | .num n => .ok n
  | .bool b => .ok (if b then 1 else 0)
  | .str s =>
    match parseIntStr s with
    | some n => .ok n
    | none => .error .valueError
  | _ => .error .typeError

/-! The Format Prober, from src/transcribe/audio.py lines 38-86. -/

/-- The outcome of the `subprocess.run(["ffprobe", ...])` call:
`launchFailure` models the FileNotFoundError Python raises when the ffprobe
executable cannot be invoked; otherwise the process ran with the given exit
code and its stdout either parsed as JSON (`some`) or did not
(`none`, i.e. `json.loads` raises JSONDecodeError). -/
inductive ProbeOutcome where
  | launchFailure
  | ran (returncode : Int) (stdout : Option Json)

/-- The body of the `try` block of `is_whisper_compatible` (audio.py lines
68-83), after `json.loads` succeeded. -/
def probeBody (data : Json) : Except PyErr Bool := do
  let streams ← pyGet data "streams" (.arr [])
  if !streams.truthy then
    return false
  let audio_stream ← pyIndexZero streams
  let codec ← pyGet audio_stream "codec_name" (.str "")
  let sample_rate ← pyInt (← pyGet audio_stream "sample_rate" (.num 0))
  let channels ← pyInt (← pyGet audio_stream "channels" (.num 0))
  let is_pcm := match codec with
    | .str s => s = "pcm_s16le" ∨ s = "pcm_s16be"
    | _ => false
  return (is_pcm && (sample_rate = REQUIRED_SAMPLE_RATE) && (channels = REQUIRED_CHANNELS))

/-- Function `is_whisper_compatible` from src/transcribe/audio.py: non-zero ffprobe
exit returns `false`; the `try` block catches exactly
`(json.JSONDecodeError, KeyError, ValueError)` and returns `false` on them;
any other exception (FileNotFoundError when ffprobe cannot be launched,
AttributeError/TypeError/IndexError from unexpected JSON shapes)
propagates. -/
def is_whisper_compatible (probe : ProbeOutcome) : Except PyErr Bool :=
  match probe with
  | .launchFailure => .error .fileNotFoundError
  | .ran returncode stdout =>
    if returncode ≠ 0 then .ok false
    else
      match stdout with
      | none => .ok false
      | some data =>
        match probeBody data with
        | .ok b => .ok b
        | .error .keyError => .ok false
        | .error .valueError => .ok false
        | .error e => .error e

/-! External-process environments and event traces. -/

/-- Outcome of one external process run (exit code plus captured
standard-error text). -/
structure Proc where
  returncode : Int
  stderr : String
  deriving DecidableEq, Repr

/-- One subprocess invocation or file-system effect performed by the
embedded code. -/
inductive Event where
  | ffprobeCall (path : String)
  | ffmpegCall (args : List String)
  | whisperCall (args : List String)
  | whichCall (binary : String)
  | unlink (path : String)
  deriving DecidableEq, Repr

/-- The external world for one `transcribe` call: the ffprobe outcome, the
temporary path `tempfile.mkstemp` would allocate, the ffmpeg and whisper-cli
process outcomes, and whether the temporary file still exists when the
`finally` block checks it. -/
structure FileEnv where
  probe : ProbeOutcome
  tempPath : String
  ffmpeg : Proc
  whisper : Proc
  tempExists : Bool

/-! The Format Converter, from src/transcribe/audio.py lines 89-130. -/

/-- The argument list of the ffmpeg invocation built by
`convert_to_whisper_format`. -/
def ffmpegCmd (input_path : String) (output_path : String) : List String :=
  ["ffmpeg", "-y", "-i", input_path,
   "-ar", toString REQUIRED_SAMPLE_RATE,
   "-ac", toString REQUIRED_CHANNELS,
   "-c:a", "pcm_s16le", output_path]

/-- Function `convert_to_whisper_format`: allocate a temp `.wav` path when no output
path is given, run ffmpeg with `check=True`, raise ConversionError carrying
the captured standard-error text on non-zero exit, else return the output
path. -/
def convert_to_whisper_format (env : FileEnv) (input_path : String)
    (output_path : Option String) : List Event × Except PyErr String :=
  let out := output_path.getD env.tempPath
  ([Event.ffmpegCall (ffmpegCmd input_path out)],
   if env.ffmpeg.returncode ≠ 0 then
     .error (.conversionError
       ("Failed to convert " ++ input_path ++ ": " ++ env.ffmpeg.stderr))
   else
     .ok out)

/-! The Transcription Driver, from src/transcribe/transcriber.py. -/

/-- Record `TranscriptionResult` (transcriber.py lines 23-31). -/
structure TranscriptionResult where
  input_file : String
  output_file : String
  model : String
  success : Bool
  error : Option String := none
  deriving DecidableEq, Repr

/-- The `Transcriber` object's fields after construction. -/
structure Transcriber where
  model : String
  model_path : String
  language : Option String
  verbose : Int
  deriving DecidableEq, Repr

/-- Python `str(e)` for a `subprocess.CalledProcessError` (the generic
message used when captured stderr is empty; the exact rendering of the
command list is abstracted to space-separated). -/
def calledProcessErrorStr (cmd : List String) (returncode : Int) : String :=
  "Command " ++ String.intercalate " " cmd ++
    " returned non-zero exit status " ++ toString returncode ++ "."

/-- The whisper-cli argument list built in `transcribe` (transcriber.py
lines 121-133). -/
def whisperCmd (t : Transcriber) (wav_path : String) (outputBase : String)
    (output_format : String) : List String :=
  [WHISPER_BINARY, "-m", t.model_path, "-f", wav_path,
   "-o" ++ output_format, "-of", outputBase] ++
  (match t.language with
   | some l => ["-l", l]
   | none => [])

/-- The `try`/`except CalledProcessError`/`finally` tail of `transcribe`
(transcriber.py lines 117-166): build the whisper-cli command, run it, turn
a non-zero exit into a `success := false` result whose error is the captured
stderr or `str(e)` when that is empty, and in all cases unlink the tracked
temporary file if it exists. -/
def runWhisperStep (t : Transcriber) (env : FileEnv) (audio_path : String)
    (output_path : String) (output_format : String) (wav_path : String)
    (temp_wav : Option String) (evs : List Event) :
    List Event × Except PyErr TranscriptionResult :=
  let outputBase := withSuffix output_path ""
  let cmd := whisperCmd t wav_path outputBase output_format
  let result : TranscriptionResult :=
    if env.whisper.returncode = 0 then
      { input_file := audio_path, output_file := output_path,
        model := t.model, success := true, error := none }
    else
      { input_file := audio_path, output_file := output_path,
        model := t.model, success := false,
        error := some (if env.whisper.stderr = "" then
          calledProcessErrorStr cmd env.whisper.returncode
        else env.whisper.stderr) }
  let cleanup : List Event :=
    match temp_wav with
    | some temp => if env.tempExists then [Event.unlink temp] else []
    | none => []
  (evs ++ [Event.whisperCall cmd] ++ cleanup, .ok result)

/-- Method `Transcriber.transcribe` (transcriber.py lines 80-166): default the
output path, probe, convert when incompatible (ConversionError and any
probe exception propagate), then run whisper-cli with guaranteed temp-file
cleanup. -/
def Transcriber.transcribe (t : Transcriber) (env : FileEnv)
    (audio_path : String) (output_path? : Option String)
    (output_format : String) : List Event × Except PyErr TranscriptionResult :=
  let output_path := output_path?.getD (withSuffix audio_path ("." ++ output_format))
  match is_whisper_compatible env.probe with
  | .error e => ([Event.ffprobeCall audio_path], .error e)
  | .ok true =>
    runWhisperStep t env audio_path output_path output_format audio_path none
      [Event.ffprobeCall audio_path]
  | .ok false =>
    match convert_to_whisper_format env audio_path none with
    | (cevs, .error e) => ([Event.ffprobeCall audio_path] ++ cevs, .error e)
    | (cevs, .ok temp) =>
      runWhisperStep t env audio_path output_path output_format temp (some temp)
        ([Event.ffprobeCall audio_path] ++ cevs)

/-- Method `Transcriber.transcribe_batch` (transcriber.py lines 168-200): one
`transcribe` call per file in list order, collecting the results; an
exception raised by `transcribe` propagates and the collected results are
lost. Each file carries its own `FileEnv` (the state of the external world
when that file is processed). -/
def Transcriber.transcribe_batch (t : Transcriber)
    (files : List (String × FileEnv)) (output_dir : Option String)
    (output_format : String) :
    List Event × Except PyErr (List TranscriptionResult) :=
  match files with
  | [] => ([], .ok [])
  | (audio_path, env) :: rest =>
    let output_path : Option String :=
      output_dir.map (fun d =>
        pathJoin d (pathName (withSuffix audio_path ("." ++ output_format))))
    match t.transcribe env audio_path output_path output_format with
    | (evs, .error e) => (evs, .error e)
    | (evs, .ok r) =>
      match t.transcribe_batch rest output_dir output_format with
      | (evs', res) => (evs ++ evs', res.map (fun rs => r :: rs))

/-! Construction-time dependency verification (transcriber.py lines
37-78). -/

/-- The external world for `Transcriber.__init__`: whether `which` finds
each binary, and which model files exist on disk. -/
structure DepEnv where
  whisperFound : Bool
  ffmpegFound : Bool
  modelExists : String → Bool

/-- Method `Transcriber._default_model_path`. -/
def default_model_path (home : String) (model : String) : String :=
  pathJoin (MODEL_DIR home) ("ggml-" ++ model ++ ".bin")

/-- Method `Transcriber._verify_dependencies`: check whisper-cli, then ffmpeg,
then the model file, raising DependencyError with a remediation hint for
the first one missing. -/
def verify_dependencies (env : DepEnv) (model : String) (model_path : String) :
    List Event × Except PyErr Unit :=
  if !env.whisperFound then
    ([Event.whichCall WHISPER_BINARY], .error (.dependencyError
      (WHISPER_BINARY ++ " not found. Install with: brew install whisper-cpp")))
  else if !env.ffmpegFound then
    ([Event.whichCall WHISPER_BINARY, Event.whichCall "ffmpeg"],
     .error (.dependencyError "ffmpeg not found. Install with: brew install ffmpeg"))
  else if !env.modelExists model_path then
    ([Event.whichCall WHISPER_BINARY, Event.whichCall "ffmpeg"],
     .error (.dependencyError
       ("Model not found at " ++ model_path ++
        ". Download with: whisper-cpp-download-ggml-model " ++ model)))
  else
    ([Event.whichCall WHISPER_BINARY, Event.whichCall "ffmpeg"], .ok ())

/-- Method `Transcriber.__init__`: resolve the model path (explicit override or
the convention-based default) and verify the three dependencies. -/
def Transcriber.init (env : DepEnv) (home : String) (model : String)
    (model_path : Option String) (language : Option String) (verbose : Int) :
    List Event × Except PyErr Transcriber :=
  let mp := model_path.getD (default_model_path home model)
  match verify_dependencies env model mp with
  | (evs, .error e) => (evs, .error e)
  | (evs, .ok _) =>
    (evs, .ok { model := model, model_path := mp, language := language,
                verbose := verbose })

/-! The CLI, from src/transcribe/cli.py. -/

/-- What a path is on the file system (`Path.is_file` / `Path.is_dir`). -/
inductive PathKind where
  | file
  | dir
  | missing
  deriving DecidableEq, Repr

/-- The file system as seen by the CLI: the kind of each path and the
result of `path.glob(pattern)` on a directory. -/
structure Fs where
  kind : String → PathKind
  glob : String → String → List String

/-- The warning `resolve_input_files` prints for a path that is neither a
file nor a directory. -/
def warningMsg (p : String) : String := "Warning: " ++ p ++ " not found, skipping"

/-- The collection loop of `resolve_input_files` (cli.py lines 170-181),
returning the accumulated files and the printed warnings. -/
def resolveCollect (fs : Fs) : List String → List String × List String
  | [] => ([], [])
  | p :: rest =>
    let tail := resolveCollect fs rest
    match fs.kind p with
    | .file =>
      if pyLower (pathSuffix p) ∈ SUPPORTED_AUDIO_EXTENSIONS then
        (p :: tail.1, tail.2)
      else
        (tail.1, tail.2)
    | .dir =>
      ((SUPPORTED_AUDIO_EXTENSIONS.map (fun ext => fs.glob p ("*" ++ ext))).flatten
        ++ tail.1, tail.2)
    | .missing => (tail.1, warningMsg p :: tail.2)

/-- Function `resolve_input_files` (cli.py lines 164-184): collect, then
`sorted(set(files))` — deduplicate and sort. -/
def resolve_input_files (fs : Fs) (input_args : List String) :
    List String × List String :=
  let collected := resolveCollect fs input_args
  (List.insertionSort (fun a b => a ≤ b) collected.1.dedup, collected.2)

/-- The parsed CLI arguments relevant to `main`. -/
structure CliArgs where
  input : List String
  bootstrap : Bool := false
  model : String := DEFAULT_MODEL
  output : Option String := none
  format : String := DEFAULT_OUTPUT_FORMAT
  language : Option String := none
  model_path : Option String := none
  verbose : Int := 0

/-- The external world for one `main` run. -/
structure CliEnv where
  fs : Fs
  dep : DepEnv
  home : String
  fileEnv : String → FileEnv
  download_ok : Bool

/-- The output-destination decision of `main` (cli.py lines 216-227):
`(output_dir, output_file)`. -/
def outputSplit (fs : Fs) (args : CliArgs) (input_files : List String) :
    Option String × Option String :=
  match args.output with
  | none => (none, none)
  | some o =>
    let is_dir_intent := o.endsWith "/" || o.endsWith "\\"
    if is_dir_intent || fs.kind o = .dir || input_files.length > 1 then
      (some o, none)
    else
      (none, some o)

/-- The transcription step of `main` (cli.py lines 247-254): single-file
mode when exactly one input and no output directory, batch mode
otherwise. -/
def runFiles (env : CliEnv) (t : Transcriber) (args : CliArgs)
    (input_files : List String) (output_dir : Option String)
    (output_file : Option String) : Except PyErr (List TranscriptionResult) :=
  if input_files.length = 1 ∧ output_dir = none then
    match input_files with
    | [f] => ((t.transcribe (env.fileEnv f) f output_file args.format).2).map
        (fun r => [r])
    | _ =>
      (t.transcribe_batch (input_files.map (fun f => (f, env.fileEnv f)))
        output_dir args.format).2
  else
    (t.transcribe_batch (input_files.map (fun f => (f, env.fileEnv f)))
      output_dir args.format).2

/-- The exit-code computation of `main` (cli.py lines 256-268): 0 when
`success_count == len(results)`, else 1. -/
def exitOfResults (results : List TranscriptionResult) : Int :=
  if (results.filter (fun r => r.success)).length = results.length then 0 else 1

/-- Function `main` (cli.py lines 187-268), also exposing the list of results the
run processed. The bootstrap branch, the `parser.error` on empty input
(SystemExit), the empty-resolution early return 1, the DependencyError
handler returning 1, and the final all-succeeded exit-code computation are
embedded; an exception escaping `transcribe` propagates out of `main`. -/
def runMain (env : CliEnv) (args : CliArgs) :
    Except PyErr (Int × List TranscriptionResult) :=
  if args.bootstrap then
    .ok (if env.download_ok then 0 else 1, [])
  else if args.input.isEmpty then
    .error (.systemExit 2)
  else
    let input_files := (resolve_input_files env.fs args.input).1
    if input_files.isEmpty then
      .ok (1, [])
    else
      let split := outputSplit env.fs args input_files
      match (Transcriber.init env.dep env.home args.model args.model_path
          args.language args.verbose).2 with
      | .error (.dependencyError _) => .ok (1, [])
      | .error e => .error e
      | .ok t =>
        match runFiles env t args input_files split.1 split.2 with
        | .error e => .error e
        | .ok results => .ok (exitOfResults results, results)

/-- The CLI `main` return value. -/
def main (env : CliEnv) (args : CliArgs) : Except PyErr Int :=
  (runMain env args).map (fun pr => pr.1)

/-! Theorems. -/

/-- C3, counterexample: on a path with an unsupported extension,
`detect_format` returns Python `None` (here `none`), not the string
`"unknown"` the claim states. -/
theorem detect_format_unsupported_counterexample :
    detect_format "song.xyz" = none ∧ detect_format "song.xyz" ≠ some "unknown" := by
  exact ⟨by decide, by decide⟩

/-- C3, amended: for every path whose lower-cased extension is a supported
audio extension, `detect_format` returns that extension without its leading
dot; for every other path it returns `none` (Python `None`), not the string
`"unknown"`. -/
theorem detect_format_spec (p : String) :
    (∀ s, detect_format p = some s ↔
      ∃ ext ∈ SUPPORTED_AUDIO_EXTENSIONS,
        pyLower (pathSuffix p) = ext ∧ s = ext.drop 1) ∧
    (detect_format p = none ↔ pyLower (pathSuffix p) ∉ SUPPORTED_AUDIO_EXTENSIONS) := by
  by_cases hm : pyLower (pathSuffix p) ∈ SUPPORTED_AUDIO_EXTENSIONS
  · have hd : detect_format p = some ((pyLower (pathSuffix p)).drop 1) := by
      simp [detect_format, hm]
    constructor
    · intro s
      constructor
      · intro hs
        refine ⟨pyLower (pathSuffix p), hm, rfl, ?_⟩
        rw [hd] at hs
        exact (Option.some.inj hs).symm
      · rintro ⟨ext, hext, heq, hs⟩
        subst hs
        rw [hd, heq]
    · simp [hd, hm]
  · constructor
    · intro s
      constructor
      · intro hs
        simp [detect_format, hm] at hs
      · rintro ⟨ext, hext, heq, hs⟩
        rw [← heq] at hext
        exact absurd hext hm
    · simp [detect_format, hm]

/-- C3, witness: a supported extension matched case-insensitively and
returned without its dot, and an unsupported extension mapped to `none`. -/
theorem detect_format_spec_witness :
    detect_format "A.MP3" = some "mp3" ∧ detect_format "x.txt" = none := by
  constructor
  · exact ((detect_format_spec "A.MP3").1 "mp3").mpr ⟨".mp3", by decide, by decide, by decide⟩
  · exact (detect_format_spec "x.txt").2.mpr (by decide)

/-- A well-formed ffprobe stream object: string codec name and integer
sample rate and channel count. -/
def wfStream (codec : String) (sr : Int) (ch : Int) : Json :=
  .obj [("codec_name", .str codec), ("sample_rate", .num sr), ("channels", .num ch)]

/-- A well-formed ffprobe run: exit code 0 and a JSON object whose
`streams` list starts with a well-formed stream. -/
def wfProbe (codec : String) (sr : Int) (ch : Int) (rest : List Json) : ProbeOutcome :=
  .ran 0 (some (.obj [("streams", .arr (wfStream codec sr ch :: rest))]))

/-- C2, counterexample: two probing failures the claim says must yield
`false` without raising, on which the code raises instead — the probe tool
cannot be invoked (FileNotFoundError from `subprocess.run` propagates), and
probe output that parses to a JSON array, on which `data.get` raises
AttributeError, which is not in the caught exception tuple. -/
theorem probe_failure_raises_counterexample :
    is_whisper_compatible .launchFailure ≠ .ok false ∧
    is_whisper_compatible .launchFailure = .error .fileNotFoundError ∧
    is_whisper_compatible (.ran 0 (some (Json.arr []))) = .error .attributeError := by
  exact ⟨by decide, rfl, rfl⟩

/-- C2, amended: on a well-formed probe result the prober returns `true`
iff the first stream's codec is `pcm_s16le` or `pcm_s16be`, the sample rate
is 16000 and the channel count is 1; a non-zero probe exit, non-JSON
output, a missing or empty stream list all yield `false`, and the caught
exception kinds (KeyError, ValueError) never escape; but a probe-launch
failure raises FileNotFoundError. -/
theorem probe_compat_spec :
    (∀ codec sr ch rest,
      is_whisper_compatible (wfProbe codec sr ch rest) = .ok true ↔
        (codec = "pcm_s16le" ∨ codec = "pcm_s16be") ∧ sr = 16000 ∧ ch = 1) ∧
    (∀ rc stdout, rc ≠ 0 → is_whisper_compatible (.ran rc stdout) = .ok false) ∧
    (∀ rc, is_whisper_compatible (.ran rc none) = .ok false) ∧
    is_whisper_compatible (.ran 0 (some (.obj [("streams", Json.arr [])]))) = .ok false ∧
    is_whisper_compatible (.ran 0 (some (.obj []))) = .ok false ∧
    is_whisper_compatible .launchFailure = .error .fileNotFoundError ∧
    (∀ probe, is_whisper_compatible probe ≠ .error .keyError ∧
      is_whisper_compatible probe ≠ .error .valueError) := by
  refine ⟨?_, ?_, ?_, rfl, rfl, rfl, ?_⟩
  · intro codec sr ch rest
    have hred : is_whisper_compatible (wfProbe codec sr ch rest) =
        .ok (decide (codec = "pcm_s16le" ∨ codec = "pcm_s16be") &&
          decide (sr = REQUIRED_SAMPLE_RATE) && decide (ch = REQUIRED_CHANNELS)) := rfl
    rw [hred]
    simp [REQUIRED_SAMPLE_RATE, REQUIRED_CHANNELS, and_assoc]
  · intro rc stdout hrc
    simp [is_whisper_compatible, hrc]
  · intro rc
    by_cases hrc : rc ≠ 0 <;> simp [is_whisper_compatible, hrc]
  · intro probe
    cases probe with
    | launchFailure => exact ⟨by decide, by decide⟩
    | ran rc stdout =>
      by_cases hrc : rc ≠ 0
      · constructor <;> simp [is_whisper_compatible, hrc]
      · cases stdout with
        | none => constructor <;> simp [is_whisper_compatible, hrc]
        | some data =>
          rcases hpb : probeBody data with e | b
          · cases e <;> constructor <;> simp [is_whisper_compatible, hrc, hpb]
          · constructor <;> simp [is_whisper_compatible, hrc, hpb]

/-- C2, witness: a compatible well-formed probe yields `true`, and a
non-zero probe exit yields `false`. -/
theorem probe_compat_spec_witness :
    is_whisper_compatible (wfProbe "pcm_s16le" 16000 1 []) = .ok true ∧
    is_whisper_compatible (.ran 1 none) = .ok false := by
  constructor
  · exact (probe_compat_spec.1 "pcm_s16le" 16000 1 []).mpr ⟨Or.inl rfl, rfl, rfl⟩
  · exact probe_compat_spec.2.1 1 none (by decide)

/-- The pair `[flag, val]` occurs as a consecutive pair in an argument list. -/
def hasFlagPair (args : List String) (flag : String) (val : String) : Prop :=
  ∃ pre post, args = pre ++ [flag, val] ++ post

/-- One string occurs inside another. -/
def strContains (big : String) (small : String) : Prop :=
  ∃ a b, big = a ++ small ++ b

/-- Whether an event is an ffmpeg (converter) invocation. -/
def Event.isConvertCall : Event → Bool
  | .ffmpegCall _ => true
  | _ => false

/-- The generic `str(CalledProcessError)` message is never empty. -/
theorem calledProcessErrorStr_ne_empty (cmd : List String) (rc : Int) :
    calledProcessErrorStr cmd rc ≠ "" := by
  intro h
  have hlen := congrArg String.length h
  rw [calledProcessErrorStr] at hlen
  rw [String.length_append, String.length_append, String.length_append] at hlen
  have h1 : ("Command " : String).length = 8 := rfl
  have h2 : ("" : String).length = 0 := rfl
  have h3 : (" returned non-zero exit status " : String).length = 31 := rfl
  have h4 : ("." : String).length = 1 := rfl
  omega

/-- Properties of the whisper-cli run and result-construction step shared
by several claims: it always returns a result (never raises), the result
carries the input and output paths and the model, succeeds exactly when the
engine exits zero, has no error message on success, and on failure carries
the captured stderr or the generic message when stderr is empty. -/
theorem runWhisperStep_props (t : Transcriber) (env : FileEnv)
    (audio : String) (output : String) (fmt : String) (wav : String)
    (temp : Option String) (evs : List Event) :
    ∃ r, (runWhisperStep t env audio output fmt wav temp evs).2 = .ok r ∧
      r.input_file = audio ∧ r.output_file = output ∧ r.model = t.model ∧
      r.success = decide (env.whisper.returncode = 0) ∧
      (env.whisper.returncode = 0 → r.error = none) ∧
      (env.whisper.returncode ≠ 0 →
        r.error = some (if env.whisper.stderr = "" then
          calledProcessErrorStr (whisperCmd t wav (withSuffix output "") fmt)
            env.whisper.returncode
          else env.whisper.stderr)) := by
  by_cases hw : env.whisper.returncode = 0
  · refine ⟨TranscriptionResult.mk audio output t.model true none, ?_, rfl, rfl, rfl, ?_,
      fun _ => rfl, fun hne => absurd hw hne⟩
    · simp [runWhisperStep, hw]
    · simp [hw]
  · refine ⟨TranscriptionResult.mk audio output t.model false
      (some (if env.whisper.stderr = "" then
        calledProcessErrorStr (whisperCmd t wav (withSuffix output "") fmt)
          env.whisper.returncode
        else env.whisper.stderr)), ?_, rfl, rfl, rfl, ?_,
      fun heq => absurd heq hw, fun _ => rfl⟩
    · simp [runWhisperStep, hw]
    · simp [hw]

/-- Evaluation: `transcribe` on a compatible file reduces to the whisper step on the
original audio path with no temp file tracked. -/
theorem transcribe_eq_compat (t : Transcriber) (env : FileEnv)
    (audio : String) (op : Option String) (fmt : String)
    (h : is_whisper_compatible env.probe = .ok true) :
    t.transcribe env audio op fmt =
      runWhisperStep t env audio (op.getD (withSuffix audio ("." ++ fmt))) fmt
        audio none [Event.ffprobeCall audio] := by
  simp only [Transcriber.transcribe, h]

/-- Evaluation: `transcribe` on an incompatible file with a succeeding conversion
reduces to the whisper step on the temp path, with the temp file tracked
and the ffmpeg call in the trace. -/
theorem transcribe_eq_incompat (t : Transcriber) (env : FileEnv)
    (audio : String) (op : Option String) (fmt : String)
    (h : is_whisper_compatible env.probe = .ok false)
    (hc : env.ffmpeg.returncode = 0) :
    t.transcribe env audio op fmt =
      runWhisperStep t env audio (op.getD (withSuffix audio ("." ++ fmt))) fmt
        env.tempPath (some env.tempPath)
        [Event.ffprobeCall audio, Event.ffmpegCall (ffmpegCmd audio env.tempPath)] := by
  simp [Transcriber.transcribe, h, convert_to_whisper_format, hc]

/-- Evaluation: `transcribe` on an incompatible file with a failing conversion raises
the ConversionError (nothing catches it), with no whisper call and no
cleanup in the trace. -/
theorem transcribe_eq_convfail (t : Transcriber) (env : FileEnv)
    (audio : String) (op : Option String) (fmt : String)
    (h : is_whisper_compatible env.probe = .ok false)
    (hc : env.ffmpeg.returncode ≠ 0) :
    t.transcribe env audio op fmt =
      ([Event.ffprobeCall audio, Event.ffmpegCall (ffmpegCmd audio env.tempPath)],
       .error (.conversionError
         ("Failed to convert " ++ audio ++ ": " ++ env.ffmpeg.stderr))) := by
  simp [Transcriber.transcribe, h, convert_to_whisper_format, hc]

/-- Evaluation: `transcribe` propagates an exception raised by the prober, with no
converter or whisper call. -/
theorem transcribe_eq_probeErr (t : Transcriber) (env : FileEnv)
    (audio : String) (op : Option String) (fmt : String) {e : PyErr}
    (h : is_whisper_compatible env.probe = .error e) :
    t.transcribe env audio op fmt = ([Event.ffprobeCall audio], .error e) := by
  simp only [Transcriber.transcribe, h]

/-- C7: the converter invokes ffmpeg exactly once, with `-ar 16000`,
`-ac 1`, `-c:a pcm_s16le` as consecutive flag/value pairs, the overwrite
flag `-y`, and the destination as last argument; a non-zero transcoder exit
yields a ConversionError whose message ends with the captured stderr text,
and a zero exit returns the destination path. -/
theorem convert_requests_spec (env : FileEnv) (input_path : String)
    (output_path : Option String) :
    (∃ args, (convert_to_whisper_format env input_path output_path).1 =
        [Event.ffmpegCall args] ∧
      args.head? = some "ffmpeg" ∧
      "-y" ∈ args ∧
      hasFlagPair args "-ar" "16000" ∧
      hasFlagPair args "-ac" "1" ∧
      hasFlagPair args "-c:a" "pcm_s16le" ∧
      args.getLast? = some (output_path.getD env.tempPath)) ∧
    (env.ffmpeg.returncode ≠ 0 →
      ∃ msg, (convert_to_whisper_format env input_path output_path).2 =
          .error (.conversionError msg) ∧
        ∃ a, msg = a ++ env.ffmpeg.stderr) ∧
    (env.ffmpeg.returncode = 0 →
      (convert_to_whisper_format env input_path output_path).2 =
        .ok (output_path.getD env.tempPath)) := by
  refine ⟨⟨ffmpegCmd input_path (output_path.getD env.tempPath), rfl, rfl, ?_, ?_, ?_, ?_, ?_⟩,
    ?_, ?_⟩
  · simp [ffmpegCmd]
  · exact ⟨["ffmpeg", "-y", "-i", input_path], ["-ac", "1", "-c:a", "pcm_s16le",
      output_path.getD env.tempPath], rfl⟩
  · exact ⟨["ffmpeg", "-y", "-i", input_path, "-ar", "16000"],
      ["-c:a", "pcm_s16le", output_path.getD env.tempPath], rfl⟩
  · exact ⟨["ffmpeg", "-y", "-i", input_path, "-ar", "16000", "-ac", "1"],
      [output_path.getD env.tempPath], rfl⟩
  · simp [ffmpegCmd]
  · intro hrc
    refine ⟨"Failed to convert " ++ input_path ++ ": " ++ env.ffmpeg.stderr, ?_,
      "Failed to convert " ++ input_path ++ ": ", rfl⟩
    simp [convert_to_whisper_format, hrc]
  · intro hrc
    simp [convert_to_whisper_format, hrc]

/-- A concrete environment whose conversion step fails with exit code 1 and
stderr "bad input". -/
def convEnv : FileEnv :=
  { probe := .launchFailure, tempPath := "/tmp/t0.wav",
    ffmpeg := { returncode := 1, stderr := "bad input" },
    whisper := { returncode := 0, stderr := "" }, tempExists := true }

/-- C7, witness: a failing conversion at a concrete input produces a
ConversionError whose message ends with the captured stderr text. -/
theorem convert_requests_spec_witness :
    ∃ msg, (convert_to_whisper_format convEnv "in.mp3" none).2 =
        .error (.conversionError msg) ∧
      ∃ a, msg = a ++ "bad input" := by
  exact (convert_requests_spec convEnv "in.mp3" none).2.1 (by decide)

/-- C6: every TranscriptionResult `transcribe` returns satisfies the
invariant — success implies no error message, failure implies a nonempty
error message. -/
theorem result_invariant (t : Transcriber) (env : FileEnv) (audio : String)
    (op : Option String) (fmt : String) (r : TranscriptionResult)
    (h : (t.transcribe env audio op fmt).2 = .ok r) :
    (r.success = true → r.error = none) ∧
    (r.success = false → ∃ s, r.error = some s ∧ s ≠ "") := by
  have key : ∀ output wav temp evs,
      (runWhisperStep t env audio output fmt wav temp evs).2 = .ok r →
      (r.success = true → r.error = none) ∧
      (r.success = false → ∃ s, r.error = some s ∧ s ≠ "") := by
    intro output wav temp evs hstep
    obtain ⟨r', hr', _, _, _, hsucc, herr0, herr1⟩ :=
      runWhisperStep_props t env audio output fmt wav temp evs
    rw [hstep] at hr'
    obtain rfl : r = r' := Except.ok.inj hr'
    by_cases hw : env.whisper.returncode = 0
    · refine ⟨fun _ => herr0 hw, fun hf => ?_⟩
      rw [hsucc] at hf
      simp [hw] at hf
    · refine ⟨fun ht => ?_, fun _ => ?_⟩
      · rw [hsucc] at ht
        simp [hw] at ht
      · rw [herr1 hw]
        by_cases hs : env.whisper.stderr = ""
        · exact ⟨_, by rw [if_pos hs], calledProcessErrorStr_ne_empty _ _⟩
        · exact ⟨_, by rw [if_neg hs], hs⟩
  rcases hc : is_whisper_compatible env.probe with e | b
  · rw [transcribe_eq_probeErr t env audio op fmt hc] at h
    exact absurd h (by simp)
  · cases b with
    | true =>
      rw [transcribe_eq_compat t env audio op fmt hc] at h
      exact key _ _ _ _ h
    | false =>
      by_cases hcv : env.ffmpeg.returncode = 0
      · rw [transcribe_eq_incompat t env audio op fmt hc hcv] at h
        exact key _ _ _ _ h
      · rw [transcribe_eq_convfail t env audio op fmt hc hcv] at h
        exact absurd h (by simp)

/-- C5: when the speech engine exits non-zero (and the file reached the
engine: its probe returned a boolean and any needed conversion succeeded),
`transcribe` returns — never raises — a failed result whose error is the
captured stderr, or the generic `str(CalledProcessError)` message when the
stderr text is empty. -/
theorem engine_failure_result (t : Transcriber) (env : FileEnv)
    (audio : String) (op : Option String) (fmt : String)
    (hok : is_whisper_compatible env.probe = .ok true ∨
      (is_whisper_compatible env.probe = .ok false ∧ env.ffmpeg.returncode = 0))
    (hrc : env.whisper.returncode ≠ 0) :
    ∃ r, (t.transcribe env audio op fmt).2 = .ok r ∧
      r.success = false ∧
      (env.whisper.stderr ≠ "" → r.error = some env.whisper.stderr) ∧
      (env.whisper.stderr = "" →
        ∃ cmd, r.error = some (calledProcessErrorStr cmd env.whisper.returncode)) := by
  have key : ∀ output wav temp evs,
      ∃ r, (runWhisperStep t env audio output fmt wav temp evs).2 = .ok r ∧
        r.success = false ∧
        (env.whisper.stderr ≠ "" → r.error = some env.whisper.stderr) ∧
        (env.whisper.stderr = "" →
          ∃ cmd, r.error = some (calledProcessErrorStr cmd env.whisper.returncode)) := by
    intro output wav temp evs
    obtain ⟨r, hr, _, _, _, hsucc, _, herr⟩ :=
      runWhisperStep_props t env audio output fmt wav temp evs
    refine ⟨r, hr, ?_, ?_, ?_⟩
    · rw [hsucc]; simp [hrc]
    · intro hs; rw [herr hrc, if_neg hs]
    · intro hs; exact ⟨_, by rw [herr hrc, if_pos hs]⟩
  rcases hok with h | ⟨h, hc⟩
  · rw [transcribe_eq_compat t env audio op fmt h]
    exact key _ _ _ _
  · rw [transcribe_eq_incompat t env audio op fmt h hc]
    exact key _ _ _ _

/-- A concrete transcriber object. -/
def tX : Transcriber :=
  { model := "medium", model_path := "/home/u/.cache/whisper/ggml-medium.bin",
    language := none, verbose := 0 }

/-- A concrete environment: compatible audio, engine fails with stderr
"engine error". -/
def engineFailEnv : FileEnv :=
  { probe := wfProbe "pcm_s16le" 16000 1 [], tempPath := "/tmp/t2.wav",
    ffmpeg := { returncode := 0, stderr := "" },
    whisper := { returncode := 1, stderr := "engine error" }, tempExists := true }

/-- C5, witness: a concrete engine failure is returned as a failed result
carrying the engine's stderr text. -/
theorem engine_failure_result_witness :
    ∃ r, (tX.transcribe engineFailEnv "a.wav" none "txt").2 = .ok r ∧
      r.success = false ∧ r.error = some "engine error" := by
  obtain ⟨r, hr, hs, he, _⟩ :=
    engine_failure_result tX engineFailEnv "a.wav" none "txt"
      (Or.inl (by decide)) (by decide)
  exact ⟨r, hr, hs, he (by decide)⟩

/-- C4: on a compatible file `transcribe` performs no converter (ffmpeg)
call; on an incompatible file with a succeeding conversion it performs
exactly one converter call and its final action before returning — whatever
the speech-engine outcome — is unlinking the temporary converted file. -/
theorem transcribe_converter_cleanup (t : Transcriber) (env : FileEnv)
    (audio : String) (op : Option String) (fmt : String) :
    (is_whisper_compatible env.probe = .ok true →
      (t.transcribe env audio op fmt).1.countP Event.isConvertCall = 0 ∧
      ∃ r, (t.transcribe env audio op fmt).2 = .ok r) ∧
    (is_whisper_compatible env.probe = .ok false → env.ffmpeg.returncode = 0 →
      env.tempExists = true →
      (t.transcribe env audio op fmt).1.countP Event.isConvertCall = 1 ∧
      (t.transcribe env audio op fmt).1.getLast? = some (Event.unlink env.tempPath) ∧
      ∃ r, (t.transcribe env audio op fmt).2 = .ok r) := by
  constructor
  · intro h
    rw [transcribe_eq_compat t env audio op fmt h]
    constructor
    · simp [runWhisperStep, Event.isConvertCall]
    · obtain ⟨r, hr, _⟩ := runWhisperStep_props t env audio
        (op.getD (withSuffix audio ("." ++ fmt))) fmt audio none
        [Event.ffprobeCall audio]
      exact ⟨r, hr⟩
  · intro h hc ht
    rw [transcribe_eq_incompat t env audio op fmt h hc]
    refine ⟨?_, ?_, ?_⟩
    · simp [runWhisperStep, ht, Event.isConvertCall]
    · simp [runWhisperStep, ht, List.getLast?]
    · obtain ⟨r, hr, _⟩ := runWhisperStep_props t env audio
        (op.getD (withSuffix audio ("." ++ fmt))) fmt env.tempPath
        (some env.tempPath)
        [Event.ffprobeCall audio, Event.ffmpegCall (ffmpegCmd audio env.tempPath)]
      exact ⟨r, hr⟩

/-- A concrete environment: incompatible audio (44.1 kHz stereo mp3) whose
conversion succeeds. -/
def incompatEnv : FileEnv :=
  { probe := wfProbe "mp3" 44100 2 [], tempPath := "/tmp/t3.wav",
    ffmpeg := { returncode := 0, stderr := "" },
    whisper := { returncode := 0, stderr := "" }, tempExists := true }

/-- C4, witness: on a concrete incompatible file the converter runs exactly
once and the last action is unlinking the temporary file. -/
theorem transcribe_converter_cleanup_witness :
    (tX.transcribe incompatEnv "song.mp3" none "txt").1.countP
      Event.isConvertCall = 1 ∧
    (tX.transcribe incompatEnv "song.mp3" none "txt").1.getLast? =
      some (Event.unlink "/tmp/t3.wav") := by
  obtain ⟨h1, h2, _⟩ :=
    (transcribe_converter_cleanup tX incompatEnv "song.mp3" none "txt").2
      (by decide) (by decide) (by decide)
  exact ⟨h1, h2⟩

/-- Totality: `transcribe` returns a result (does not raise) whenever the probe
returns a boolean and any needed conversion succeeds, and the result
records the input path. -/
theorem transcribe_ok_of (t : Transcriber) (env : FileEnv) (audio : String)
    (op : Option String) (fmt : String)
    (hok : is_whisper_compatible env.probe = .ok true ∨
      (is_whisper_compatible env.probe = .ok false ∧ env.ffmpeg.returncode = 0)) :
    ∃ r, (t.transcribe env audio op fmt).2 = .ok r ∧ r.input_file = audio := by
  rcases hok with h | ⟨h, hc⟩
  · rw [transcribe_eq_compat t env audio op fmt h]
    obtain ⟨r, hr, hi, _⟩ := runWhisperStep_props t env audio
      (op.getD (withSuffix audio ("." ++ fmt))) fmt audio none
      [Event.ffprobeCall audio]
    exact ⟨r, hr, hi⟩
  · rw [transcribe_eq_incompat t env audio op fmt h hc]
    obtain ⟨r, hr, hi, _⟩ := runWhisperStep_props t env audio
      (op.getD (withSuffix audio ("." ++ fmt))) fmt env.tempPath
      (some env.tempPath)
      [Event.ffprobeCall audio, Event.ffmpegCall (ffmpegCmd audio env.tempPath)]
    exact ⟨r, hr, hi⟩

/-- A concrete environment: incompatible audio whose conversion fails with
exit code 1 and stderr "boom". -/
def convFailEnv : FileEnv :=
  { probe := wfProbe "mp3" 44100 2 [], tempPath := "/tmp/t1.wav",
    ffmpeg := { returncode := 1, stderr := "boom" },
    whisper := { returncode := 0, stderr := "" }, tempExists := true }

/-- A concrete environment: compatible audio, everything succeeds. -/
def goodEnv : FileEnv :=
  { probe := wfProbe "pcm_s16le" 16000 1 [], tempPath := "/tmp/t4.wav",
    ffmpeg := { returncode := 0, stderr := "" },
    whisper := { returncode := 0, stderr := "" }, tempExists := true }

/-- C1, counterexample: a batch of two files where the first file's
conversion fails raises ConversionError out of `transcribe_batch` — the
batch returns no result list at all (not two results) and the second file
is never probed or attempted. -/
theorem batch_aborts_on_conversion_counterexample :
    (tX.transcribe_batch [("a.mp3", convFailEnv), ("b.wav", goodEnv)]
      none "txt").2 =
      .error (.conversionError "Failed to convert a.mp3: boom") ∧
    (tX.transcribe_batch [("a.mp3", convFailEnv), ("b.wav", goodEnv)]
      none "txt").1 =
      [Event.ffprobeCall "a.mp3", Event.ffmpegCall (ffmpegCmd "a.mp3" "/tmp/t1.wav")] := by
  exact ⟨by decide, by decide⟩

/-- C1, amended: when every file's probe returns a boolean and every needed
conversion succeeds, `transcribe_batch` over N files returns exactly N
results in input order, whatever each speech-engine outcome (an engine
failure on one file does not prevent subsequent files); but a
ConversionError (or a probe exception) on any file propagates and aborts
the batch, losing all results. -/
theorem transcribe_batch_spec (t : Transcriber)
    (files : List (String × FileEnv)) (od : Option String) (fmt : String)
    (h : ∀ pe ∈ files, is_whisper_compatible pe.2.probe = .ok true ∨
      (is_whisper_compatible pe.2.probe = .ok false ∧
        pe.2.ffmpeg.returncode = 0)) :
    ∃ rs, (t.transcribe_batch files od fmt).2 = .ok rs ∧
      rs.length = files.length ∧
      ∀ i : Nat, (rs[i]?).map TranscriptionResult.input_file =
        (files[i]?).map Prod.fst := by
  induction files with
  | nil => exact ⟨[], rfl, rfl, fun i => by cases i <;> rfl⟩
  | cons pe rest ih =>
    obtain ⟨p, env⟩ := pe
    obtain ⟨r, hr, hi⟩ := transcribe_ok_of t env p
      (od.map (fun d => pathJoin d (pathName (withSuffix p ("." ++ fmt))))) fmt
      (h _ (List.mem_cons_self _ _))
    obtain ⟨rs, hrs, hlen, hidx⟩ :=
      ih (fun pe hpe => h pe (List.mem_cons_of_mem _ hpe))
    rcases hT : t.transcribe env p
      (od.map (fun d => pathJoin d (pathName (withSuffix p ("." ++ fmt))))) fmt
      with ⟨evs, res⟩
    rw [hT] at hr
    rcases hB : t.transcribe_batch rest od fmt with ⟨evs', res'⟩
    rw [hB] at hrs
    have hres : res = Except.ok r := hr
    have hres' : res' = Except.ok rs := hrs
    subst hres
    subst hres'
    refine ⟨r :: rs, ?_, ?_, ?_⟩
    · simp [Transcriber.transcribe_batch, hT, hB, Except.map]
    · simp [hlen]
    · intro i
      cases i with
      | zero => simp [hi]
      | succ n => simpa using hidx n

/-- C1, witness: a concrete two-file batch where the first file's engine
invocation fails still yields two results in input order. -/
theorem transcribe_batch_spec_witness :
    ∃ rs, (tX.transcribe_batch [("a.wav", engineFailEnv), ("b.wav", goodEnv)]
        none "txt").2 = .ok rs ∧ rs.length = 2 := by
  obtain ⟨rs, hrs, hlen, _⟩ :=
    transcribe_batch_spec tX [("a.wav", engineFailEnv), ("b.wav", goodEnv)]
      none "txt" (by decide)
  exact ⟨rs, hrs, by rw [hlen]; rfl⟩

/-- String concatenation is associative (data-level list associativity). -/
theorem str_append_assoc (a b c : String) : a ++ b ++ c = a ++ (b ++ c) :=
  congrArg String.mk (List.append_assoc a.data b.data c.data)

/-- C8: construction checks the speech-engine binary, the transcoder
binary and the model file; the first missing one fails construction with a
DependencyError whose message names that dependency and carries a
remediation hint; when all three are present construction returns the
configured object; and the construction trace consists only of `which`
lookups — no probing, conversion or transcription work. -/
theorem init_dependency_spec (env : DepEnv) (home : String) (model : String)
    (mp : Option String) (lang : Option String) (v : Int) :
    (∀ e ∈ (Transcriber.init env home model mp lang v).1,
      ∃ b, e = Event.whichCall b) ∧
    (env.whisperFound = false →
      ∃ msg, (Transcriber.init env home model mp lang v).2 =
          .error (.dependencyError msg) ∧
        strContains msg WHISPER_BINARY ∧ strContains msg "Install with:") ∧
    (env.whisperFound = true → env.ffmpegFound = false →
      ∃ msg, (Transcriber.init env home model mp lang v).2 =
          .error (.dependencyError msg) ∧
        strContains msg "ffmpeg" ∧ strContains msg "Install with:") ∧
    (env.whisperFound = true → env.ffmpegFound = true →
      env.modelExists (mp.getD (default_model_path home model)) = false →
      ∃ msg, (Transcriber.init env home model mp lang v).2 =
          .error (.dependencyError msg) ∧
        strContains msg (mp.getD (default_model_path home model)) ∧
        strContains msg "Download with:") ∧
    (env.whisperFound = true → env.ffmpegFound = true →
      env.modelExists (mp.getD (default_model_path home model)) = true →
      (Transcriber.init env home model mp lang v).2 =
        .ok { model := model, model_path := mp.getD (default_model_path home model),
              language := lang, verbose := v }) := by
  refine ⟨?_, ?_, ?_, ?_, ?_⟩
  · intro e he
    rcases hw : env.whisperFound with _ | _ <;>
      rcases hf : env.ffmpegFound with _ | _ <;>
      rcases hm : env.modelExists (mp.getD (default_model_path home model))
        with _ | _ <;>
      simp [Transcriber.init, verify_dependencies, hw, hf, hm] at he <;>
      first
      | exact ⟨_, rfl⟩
      | (rcases he with he | he <;> exact ⟨_, he⟩)
      | exact ⟨_, he⟩
  · intro hw
    have hmsg : (Transcriber.init env home model mp lang v).2 =
        .error (.dependencyError
          "whisper-cli not found. Install with: brew install whisper-cpp") := by
      simp [Transcriber.init, verify_dependencies, hw, WHISPER_BINARY]
    exact ⟨_, hmsg,
      ⟨"", " not found. Install with: brew install whisper-cpp", by decide⟩,
      ⟨"whisper-cli not found. ", " brew install whisper-cpp", by decide⟩⟩
  · intro hw hf
    have hmsg : (Transcriber.init env home model mp lang v).2 =
        .error (.dependencyError
          "ffmpeg not found. Install with: brew install ffmpeg") := by
      simp [Transcriber.init, verify_dependencies, hw, hf]
    exact ⟨_, hmsg,
      ⟨"", " not found. Install with: brew install ffmpeg", by decide⟩,
      ⟨"ffmpeg not found. ", " brew install ffmpeg", by decide⟩⟩
  · intro hw hf hm
    have hmsg : (Transcriber.init env home model mp lang v).2 =
        .error (.dependencyError
          ("Model not found at " ++ mp.getD (default_model_path home model) ++
            ". Download with: whisper-cpp-download-ggml-model " ++ model)) := by
      simp [Transcriber.init, verify_dependencies, hw, hf, hm]
    refine ⟨_, hmsg, ?_, ?_⟩
    · refine ⟨"Model not found at ",
        ". Download with: whisper-cpp-download-ggml-model " ++ model, ?_⟩
      simp only [str_append_assoc]
    · refine ⟨"Model not found at " ++ mp.getD (default_model_path home model) ++ ". ",
        " whisper-cpp-download-ggml-model " ++ model, ?_⟩
      simp only [str_append_assoc]
      rfl
  · intro hw hf hm
    simp [Transcriber.init, verify_dependencies, hw, hf, hm]

/-- A concrete dependency environment whose model file is missing. -/
def noModelDeps : DepEnv :=
  { whisperFound := true, ffmpegFound := true, modelExists := fun _ => false }

/-- C8, witness: constructing against a world with both binaries present
but the model file absent fails with a DependencyError naming the model
path, and the construction trace holds only `which` lookups. -/
theorem init_dependency_spec_witness :
    (∃ msg, (Transcriber.init noModelDeps "/home/u" "medium" none none 0).2 =
        .error (.dependencyError msg) ∧
      strContains msg "/home/u/.cache/whisper/ggml-medium.bin" ∧
      strContains msg "Download with:") ∧
    (∀ e ∈ (Transcriber.init noModelDeps "/home/u" "medium" none none 0).1,
      ∃ b, e = Event.whichCall b) := by
  constructor
  · exact (init_dependency_spec noModelDeps "/home/u" "medium" none none 0).2.2.2.1
      rfl rfl rfl
  · exact (init_dependency_spec noModelDeps "/home/u" "medium" none none 0).1

/-- Function `warningMsg` is injective (the path is recoverable from the message). -/
theorem warningMsg_inj {p q : String} (h : warningMsg p = warningMsg q) : p = q := by
  have hd2 : ("Warning: ".data ++ p.data) ++ " not found, skipping".data =
      ("Warning: ".data ++ q.data) ++ " not found, skipping".data :=
    congrArg String.data h
  have h3 := List.append_cancel_right hd2
  have h4 := List.append_cancel_left h3
  exact congrArg String.mk h4

/-- Membership in the collection loop's file list: a path is collected iff
some input argument is a supported existing file equal to it, or some input
argument is a directory one of whose glob results contains it. -/
theorem mem_resolveCollect (fs : Fs) (args : List String) (q : String) :
    q ∈ (resolveCollect fs args).1 ↔
      ∃ a ∈ args,
        (fs.kind a = .file ∧ pyLower (pathSuffix a) ∈ SUPPORTED_AUDIO_EXTENSIONS ∧
          q = a) ∨
        (fs.kind a = .dir ∧ ∃ ext ∈ SUPPORTED_AUDIO_EXTENSIONS,
          q ∈ fs.glob a ("*" ++ ext)) := by
  induction args with
  | nil => simp [resolveCollect]
  | cons p rest ih =>
    cases hk : fs.kind p with
    | file =>
      by_cases hs : pyLower (pathSuffix p) ∈ SUPPORTED_AUDIO_EXTENSIONS
      · simp only [resolveCollect, hk, if_pos hs, List.mem_cons, ih]
        constructor
        · rintro (hqp | ⟨a, ha, hcase⟩)
          · exact ⟨p, Or.inl rfl, Or.inl ⟨hk, hs, hqp⟩⟩
          · exact ⟨a, Or.inr ha, hcase⟩
        · rintro ⟨a, rfl | ha', hcase⟩
          · rcases hcase with ⟨_, _, hq⟩ | ⟨hd, _⟩
            · exact Or.inl hq
            · rw [hk] at hd; cases hd
          · exact Or.inr ⟨a, ha', hcase⟩
      · simp only [resolveCollect, hk, if_neg hs, List.mem_cons, ih]
        constructor
        · rintro ⟨a, ha, hcase⟩
          exact ⟨a, Or.inr ha, hcase⟩
        · rintro ⟨a, rfl | ha', hcase⟩
          · rcases hcase with ⟨_, hsup, _⟩ | ⟨hd, _⟩
            · exact absurd hsup hs
            · rw [hk] at hd; cases hd
          · exact ⟨a, ha', hcase⟩
    | dir =>
      simp only [resolveCollect, hk, List.mem_append, List.mem_cons, ih]
      constructor
      · rintro (hg | ⟨a, ha, hcase⟩)
        · rw [List.mem_flatten] at hg
          obtain ⟨l, hl, hql⟩ := hg
          obtain ⟨ext, hext, rfl⟩ := List.mem_map.mp hl
          exact ⟨p, Or.inl rfl, Or.inr ⟨hk, ext, hext, hql⟩⟩
        · exact ⟨a, Or.inr ha, hcase⟩
      · rintro ⟨a, rfl | ha', hcase⟩
        · rcases hcase with ⟨hf, _, _⟩ | ⟨_, ext, hext, hql⟩
          · rw [hk] at hf; cases hf
          · exact Or.inl (List.mem_flatten.mpr
              ⟨_, List.mem_map.mpr ⟨ext, hext, rfl⟩, hql⟩)
        · exact Or.inr ⟨a, ha', hcase⟩
    | missing =>
      simp only [resolveCollect, hk, List.mem_cons, ih]
      constructor
      · rintro ⟨a, ha, hcase⟩
        exact ⟨a, Or.inr ha, hcase⟩
      · rintro ⟨a, rfl | ha', hcase⟩
        · rcases hcase with ⟨hf, _⟩ | ⟨hd, _⟩
          · rw [hk] at hf; cases hf
          · rw [hk] at hd; cases hd
        · exact ⟨a, ha', hcase⟩

/-- The collection loop warns exactly about the arguments that are neither
an existing file nor a directory. -/
theorem warnings_resolveCollect (fs : Fs) (args : List String) :
    (resolveCollect fs args).2 =
      (args.filter (fun p => decide (fs.kind p = PathKind.missing))).map
        warningMsg := by
  induction args with
  | nil => rfl
  | cons p rest ih =>
    cases hk : fs.kind p with
    | file =>
      by_cases hs : pyLower (pathSuffix p) ∈ SUPPORTED_AUDIO_EXTENSIONS <;>
        simp [resolveCollect, hk, hs, List.filter_cons, ih]
    | dir => simp [resolveCollect, hk, List.filter_cons, ih]
    | missing => simp [resolveCollect, hk, List.filter_cons, ih]

/-- C10: `resolve_input_files` returns a sorted, duplicate-free list; a
path is in the result iff it is a supported existing file among the
arguments or a glob result of a directory argument (so an existing file
with an unsupported extension is dropped); warnings are emitted exactly for
arguments that are neither a file nor a directory — in particular the drop
of an unsupported file is silent. -/
theorem resolve_input_files_spec (fs : Fs) (input_args : List String) :
    List.Sorted (fun a b => a ≤ b) (resolve_input_files fs input_args).1 ∧
    (resolve_input_files fs input_args).1.Nodup ∧
    (∀ q, q ∈ (resolve_input_files fs input_args).1 ↔
      ∃ a ∈ input_args,
        (fs.kind a = .file ∧ pyLower (pathSuffix a) ∈ SUPPORTED_AUDIO_EXTENSIONS ∧
          q = a) ∨
        (fs.kind a = .dir ∧ ∃ ext ∈ SUPPORTED_AUDIO_EXTENSIONS,
          q ∈ fs.glob a ("*" ++ ext))) ∧
    (resolve_input_files fs input_args).2 =
      (input_args.filter (fun p => decide (fs.kind p = PathKind.missing))).map
        warningMsg ∧
    (∀ a, fs.kind a = .file →
      pyLower (pathSuffix a) ∉ SUPPORTED_AUDIO_EXTENSIONS →
      (∀ d ext, a ∉ fs.glob d ("*" ++ ext)) →
      a ∉ (resolve_input_files fs input_args).1 ∧
      warningMsg a ∉ (resolve_input_files fs input_args).2) := by
  have hperm := List.perm_insertionSort (fun a b : String => a ≤ b)
    (resolveCollect fs input_args).1.dedup
  have hmem : ∀ x, x ∈ (resolve_input_files fs input_args).1 ↔
      x ∈ (resolveCollect fs input_args).1 := by
    intro x
    constructor
    · intro hx; exact List.mem_dedup.mp (hperm.mem_iff.mp hx)
    · intro hx; exact hperm.mem_iff.mpr (List.mem_dedup.mpr hx)
  refine ⟨List.sorted_insertionSort _ _, hperm.nodup_iff.mpr (List.nodup_dedup _),
    ?_, warnings_resolveCollect fs input_args, ?_⟩
  · intro q
    rw [hmem q, mem_resolveCollect]
  · intro a hf hs hg
    constructor
    · intro hin
      rcases (mem_resolveCollect fs input_args a).mp ((hmem a).mp hin)
        with ⟨b, _, ⟨_, hsup, rfl⟩ | ⟨_, ext, _, hgl⟩⟩
      · exact hs hsup
      · exact hg b ext hgl
    · intro hw
      have hw' : warningMsg a ∈ (resolveCollect fs input_args).2 := hw
      rw [warnings_resolveCollect] at hw'
      obtain ⟨p, hp, heq⟩ := List.mem_map.mp hw'
      obtain rfl : p = a := warningMsg_inj heq
      have hmiss := of_decide_eq_true (List.mem_filter.mp hp).2
      rw [hf] at hmiss
      cases hmiss

/-- A concrete file system: one supported audio file and everything else
missing. -/
def fs2 : Fs :=
  { kind := fun p => if p = "a.wav" then .file else .missing,
    glob := fun _ _ => [] }

/-- C10, witness: the existing supported file is in the result, and the
missing argument yields exactly one warning. -/
theorem resolve_input_files_spec_witness :
    "a.wav" ∈ (resolve_input_files fs2 ["a.wav", "nope.wav"]).1 ∧
    (resolve_input_files fs2 ["a.wav", "nope.wav"]).2 =
      ["Warning: nope.wav not found, skipping"] := by
  constructor
  · exact ((resolve_input_files_spec fs2 ["a.wav", "nope.wav"]).2.2.1 "a.wav").mpr
      ⟨"a.wav", by decide, Or.inl ⟨by decide, by decide, rfl⟩⟩
  · rw [(resolve_input_files_spec fs2 ["a.wav", "nope.wav"]).2.2.2.1]
    decide

/-- A batch that returns a result list has one result per input file. -/
theorem transcribe_batch_ok_length (t : Transcriber)
    (files : List (String × FileEnv)) (od : Option String) (fmt : String)
    (rs : List TranscriptionResult)
    (h : (t.transcribe_batch files od fmt).2 = .ok rs) :
    rs.length = files.length := by
  induction files generalizing rs with
  | nil =>
    have h' : Except.ok ([] : List TranscriptionResult) = Except.ok rs := h
    obtain rfl := Except.ok.inj h'
    rfl
  | cons pe rest ih =>
    obtain ⟨p, env⟩ := pe
    rcases hT : t.transcribe env p
      (od.map (fun d => pathJoin d (pathName (withSuffix p ("." ++ fmt))))) fmt
      with ⟨evs, res⟩
    cases res with
    | error e =>
      simp only [Transcriber.transcribe_batch, hT] at h
      exact absurd h (by simp)
    | ok r =>
      rcases hB : t.transcribe_batch rest od fmt with ⟨evs', res'⟩
      simp only [Transcriber.transcribe_batch, hT, hB] at h
      cases res' with
      | error e => simp [Except.map] at h
      | ok rs' =>
        have hrs : rs = r :: rs' := by
          have h' : (Except.ok (r :: rs') : Except PyErr (List TranscriptionResult)) =
              Except.ok rs := by
            simpa [Except.map] using h
          exact (Except.ok.inj h').symm
        subst hrs
        have hlen := ih rs' (by rw [hB])
        simp [hlen]

/-- The transcription step of `main` yields one result per resolved input
file when it returns. -/
theorem runFiles_ok_length (env : CliEnv) (t : Transcriber) (args : CliArgs)
    (input_files : List String) (od : Option String) (ofile : Option String)
    (rs : List TranscriptionResult)
    (h : runFiles env t args input_files od ofile = .ok rs) :
    rs.length = input_files.length := by
  unfold runFiles at h
  by_cases hc : input_files.length = 1 ∧ od = none
  · rw [if_pos hc] at h
    rcases input_files with _ | ⟨f, _ | ⟨g, tail⟩⟩
    · exact absurd hc.1 (by simp)
    · have h' : Except.map (fun r => [r])
          (t.transcribe (env.fileEnv f) f ofile args.format).2 = Except.ok rs := h
      cases hr : (t.transcribe (env.fileEnv f) f ofile args.format).2 with
      | error e =>
        rw [hr] at h'
        simp [Except.map] at h'
      | ok r =>
        rw [hr] at h'
        have h'' : (Except.ok [r] : Except PyErr (List TranscriptionResult)) =
            Except.ok rs := by simpa [Except.map] using h'
        obtain rfl := Except.ok.inj h''
        rfl
    · obtain ⟨h1, _⟩ := hc
      simp at h1
  · rw [if_neg hc] at h
    have hlen := transcribe_batch_ok_length t
      (input_files.map (fun f => (f, env.fileEnv f))) od args.format rs h
    rwa [List.length_map] at hlen

/-- C9: when a non-bootstrap `main` run returns an exit code, that code is
0 or 1, and it is 0 exactly when the run processed at least one file and
every processed file produced a successful result; the no-valid-input-files
run, the dependency-failure run, and any run with a failed file all return
1. -/
theorem cli_exit_code (env : CliEnv) (args : CliArgs) (c : Int)
    (rs : List TranscriptionResult) (hb : args.bootstrap = false)
    (h : runMain env args = .ok (c, rs)) :
    (c = 0 ∨ c = 1) ∧ (c = 0 ↔ rs ≠ [] ∧ ∀ r ∈ rs, r.success = true) := by
  unfold runMain at h
  rw [hb] at h
  simp only [Bool.false_eq_true, if_false] at h
  by_cases h1 : args.input.isEmpty
  · rw [if_pos h1] at h
    simp at h
  · rw [if_neg h1] at h
    by_cases h2 : ((resolve_input_files env.fs args.input).1).isEmpty
    · rw [if_pos h2] at h
      obtain ⟨rfl, rfl⟩ := Prod.mk.inj (Except.ok.inj h)
      exact ⟨Or.inr rfl, by simp⟩
    · rw [if_neg h2] at h
      rcases hI : (Transcriber.init env.dep env.home args.model args.model_path
          args.language args.verbose).2 with e | t
      · cases e with
        | dependencyError msg =>
          simp only [hI] at h
          obtain ⟨rfl, rfl⟩ := Prod.mk.inj (Except.ok.inj h)
          refine ⟨Or.inr rfl, ?_, ?_⟩
          · intro h10; exact absurd h10 (by decide)
          · rintro ⟨hne, _⟩; exact absurd rfl hne
        | conversionError msg => simp only [hI] at h; exact absurd h (by simp)
        | fileNotFoundError => simp only [hI] at h; exact absurd h (by simp)
        | attributeError => simp only [hI] at h; exact absurd h (by simp)
        | typeError => simp only [hI] at h; exact absurd h (by simp)
        | keyError => simp only [hI] at h; exact absurd h (by simp)
        | valueError => simp only [hI] at h; exact absurd h (by simp)
        | indexError => simp only [hI] at h; exact absurd h (by simp)
        | systemExit code => simp only [hI] at h; exact absurd h (by simp)
      · simp only [hI] at h
        rcases hR : runFiles env t args (resolve_input_files env.fs args.input).1
            (outputSplit env.fs args (resolve_input_files env.fs args.input).1).1
            (outputSplit env.fs args (resolve_input_files env.fs args.input).1).2
          with e' | results
        · rw [hR] at h
          simp at h
        · rw [hR] at h
          obtain ⟨rfl, rfl⟩ := Prod.mk.inj (Except.ok.inj h)
          have hlen := runFiles_ok_length env t args _ _ _ results hR
          have hne : results ≠ [] := by
            intro hnil
            subst hnil
            have hz : (resolve_input_files env.fs args.input).1 = [] :=
              List.length_eq_zero.mp hlen.symm
            rw [hz] at h2
            exact h2 rfl
          constructor
          · unfold exitOfResults
            by_cases hfl : (results.filter (fun r => r.success)).length =
                results.length
            · rw [if_pos hfl]; exact Or.inl rfl
            · rw [if_neg hfl]; exact Or.inr rfl
          · unfold exitOfResults
            by_cases hfl : (results.filter (fun r => r.success)).length =
                results.length
            · rw [if_pos hfl]
              exact ⟨fun _ => ⟨hne, List.filter_length_eq_length.mp hfl⟩,
                fun _ => rfl⟩
            · rw [if_neg hfl]
              constructor
              · intro h10; exact absurd h10 (by decide)
              · rintro ⟨_, hall⟩
                exact absurd (List.filter_length_eq_length.mpr hall) hfl

/-- A concrete CLI world: `a.wav` exists and everything works. -/
def cliEnvX : CliEnv :=
  { fs := fs2,
    dep := { whisperFound := true, ffmpegFound := true, modelExists := fun _ => true },
    home := "/home/u", fileEnv := fun _ => goodEnv, download_ok := true }

/-- Concrete CLI arguments: a single input file, all defaults. -/
def cliArgsX : CliArgs := { input := ["a.wav"] }

/-- The result the concrete run produces. -/
def rX : TranscriptionResult :=
  { input_file := "a.wav", output_file := "a.txt", model := "medium",
    success := true, error := none }

/-- C6, witness: the concrete successful run's result satisfies the
invariant — success with an empty error field. -/
theorem result_invariant_witness : rX.error = none := by
  have hr : (tX.transcribe goodEnv "a.wav" none "txt").2 = .ok rX := by decide
  exact (result_invariant tX goodEnv "a.wav" none "txt" rX hr).1 rfl

/-- C9, witness: a concrete all-successful single-file run exits 0, and the
exit-code characterization holds for it. -/
theorem cli_exit_code_witness :
    runMain cliEnvX cliArgsX = .ok (0, [rX]) ∧
    ([rX] ≠ [] ∧ ∀ r ∈ [rX], r.success = true) := by
  have hrun : runMain cliEnvX cliArgsX = .ok (0, [rX]) := by decide
  exact ⟨hrun, (cli_exit_code cliEnvX cliArgsX 0 [rX] rfl hrun).2.mp rfl⟩

end Transcription
